import Mathlib

/-!
# Rlibtiledbvcf: the binding layer between the R runtime and TileDB-VCF

A shallow embedding of `src/RC_TileDBVCF.c`, `src/RC_TileDBVCF.h` and
`src/Rlibtiledbvcf_init.c`.

The C functions talk to two collaborators that are not part of the repository:

* the TileDB-VCF library, modelled by `Library`, a record of the answers its
  C API gives (status code plus what it stores through the out-pointer);
* the R runtime, modelled by `World`: a heap of R objects, the protection
  stack, a collector that may run at every allocation, and a trace of the
  events the C code causes.

C functions become functions in the monad `R`, whose results are a normal
return, an R error raised by `Rf_error`, or a fault (undefined behaviour).
-/

namespace Rlibtiledbvcf

/-! ## The R runtime -/

/-- An element of a character vector (`STRSXP`). -/
inductive StrElt where
  /-- The constant `R_BlankString`, what `Rf_allocVector` fills a fresh `STRSXP` with. -/
  | blank
  /-- The constant `NA_STRING`. -/
  | na
  /-- A pointer to a `CHARSXP` on the heap. -/
  | ref (a : Nat)
  deriving DecidableEq, Repr

/-- The R objects the binding layer allocates. -/
inductive RObj where
  /-- A `CHARSXP`, holding a copy of a C string. -/
  | charsxp (s : String)
  /-- A `STRSXP`, a character vector. -/
  | strsxp (elts : List StrElt)
  /-- A `LGLSXP`, a logical vector: C ints. -/
  | lglsxp (elts : List Int)
  deriving DecidableEq, Repr

/-- The vector types passed to `Rf_allocVector` by the source. -/
inductive SEXPTYPE where
  | STRSXP
  | LGLSXP
  deriving DecidableEq, Repr

/-- A value of C type `SEXP`: the global `R_NilValue` or a heap object. -/
inductive SEXP where
  | nil
  | obj (a : Nat)
  deriving DecidableEq, Repr

/-- The constant `R_NilValue`. -/
def R_NilValue : SEXP := SEXP.nil

/-- The C constant `TRUE` of the R headers. -/
def TRUE : Int := 1

/-- The C constant `FALSE` of the R headers. -/
def FALSE : Int := 0

/-- The missing logical value, `NA_LOGICAL` (`INT_MIN`). -/
def NA_LOGICAL : Int := -2147483648

/-- What the C code does to the outside, in the order it does it. -/
inductive Event where
  /-- A call of a function of the TileDB-VCF C API. -/
  | libcall (fn : String)
  /-- The runtime handed out the new object at address `a`. -/
  | alloc (a : Nat)
  /-- A `PROTECT` of the object at address `a`. -/
  | protect (a : Nat)
  /-- A call `UNPROTECT(n)`. -/
  | unprotect (n : Nat)
  /-- A store into the object at address `a`. -/
  | write (a : Nat)
  deriving DecidableEq, Repr

/-- The state of the host process as the binding layer sees it. -/
structure World where
  /-- The heap: `none` is a cell that is free or has been collected. -/
  heap : Nat → Option RObj
  /-- The address the next allocation returns. -/
  next : Nat
  /-- The protection stack, top first. -/
  pstack : List Nat
  /-- For each coming allocation, whether the collector runs first. -/
  gcTape : List Bool
  /-- The contents of uninitialised memory. -/
  junk : Nat → Int
  /-- The events so far, oldest first. -/
  trace : List Event

/-- How a C function of the binding layer ends. -/
inductive Result (α : Type) where
  /-- It returned `v`. -/
  | ok (v : α) (w : World)
  /-- A call of `Rf_error` left it with the message `text`. -/
  | raised (text : String) (w : World)
  /-- Undefined behaviour: a null or collected object was used. -/
  | fault (w : World)

/-- A computation in the host process. -/
def R (α : Type) : Type := World → Result α

/-- Sequencing: what follows a raise or a fault is not run. -/
def R.bind {α β : Type} (x : R α) (f : α → R β) : R β := fun w =>
  match x w with
  | Result.ok v w1 => f v w1
  | Result.raised t w1 => Result.raised t w1
  | Result.fault w1 => Result.fault w1

/-- A computation that returns `v` and does nothing else. -/
def R.pure {α : Type} (v : α) : R α := fun w => Result.ok v w

instance : Monad R where
  pure := R.pure
  bind := R.bind

/-- Append an event to the trace. -/
def World.log (w : World) (e : Event) : World :=
  { w with trace := w.trace ++ [e] }

/-- Whether the collector keeps the cell at `a`: it is on the protection stack,
or an element of a character vector that is. -/
def World.reachable (w : World) (a : Nat) : Bool :=
  w.pstack.contains a ||
    w.pstack.any fun p =>
      match w.heap p with
      | some (RObj.strsxp elts) => elts.contains (StrElt.ref a)
      | _ => false

/-- A run of the collector: every cell that is not reachable from the
protection stack is freed. -/
def World.collect (w : World) : World :=
  { w with heap := fun a => if w.reachable a then w.heap a else none }

/-- The allocator: the collector runs first when the tape says so, then the
object is placed at a fresh address. -/
def World.allocate (o : RObj) : R SEXP := fun w =>
  let w1 : World :=
    match w.gcTape with
    | [] => w
    | g :: tape => if g then { w.collect with gcTape := tape } else { w with gcTape := tape }
  let a := w1.next
  Result.ok (SEXP.obj a)
    ({ w1 with heap := fun b => if b = a then some o else w1.heap b, next := a + 1 }.log
      (Event.alloc a))

/-- The runtime function `Rf_allocVector(type, n)`: a character vector is filled with
`R_BlankString`, a logical vector is left uninitialised. -/
def Rf_allocVector (type : SEXPTYPE) (n : Nat) : R SEXP := fun w =>
  match type with
  | SEXPTYPE.STRSXP => World.allocate (RObj.strsxp (List.replicate n StrElt.blank)) w
  | SEXPTYPE.LGLSXP => World.allocate (RObj.lglsxp ((List.range n).map w.junk)) w

/-- The runtime function `Rf_mkChar(s)`: a `CHARSXP` holding a copy of the C string `s`;
a null `s` is undefined behaviour. -/
def Rf_mkChar (s : Option String) : R SEXP := fun w =>
  match s with
  | some str => World.allocate (RObj.charsxp str) w
  | none => Result.fault w

/-- The runtime function `PROTECT(s)`: push `s` on the protection stack and yield it. -/
def PROTECT (s : SEXP) : R SEXP := fun w =>
  match s with
  | SEXP.obj a => Result.ok s ({ w with pstack := a :: w.pstack }.log (Event.protect a))
  | SEXP.nil => Result.ok s w

/-- The runtime function `UNPROTECT(n)`: pop `n` entries of the protection stack. -/
def UNPROTECT (n : Nat) : R Unit := fun w =>
  if n ≤ w.pstack.length then
    Result.ok () ({ w with pstack := w.pstack.drop n }.log (Event.unprotect n))
  else Result.fault w

/-- The runtime function `SET_STRING_ELT(x, i, v)`: store the `CHARSXP` `v` at index `i` of the
character vector `x`. -/
def SET_STRING_ELT (x : SEXP) (i : Nat) (v : SEXP) : R Unit := fun w =>
  match x, v with
  | SEXP.obj a, SEXP.obj c =>
    match w.heap a, w.heap c with
    | some (RObj.strsxp elts), some (RObj.charsxp _) =>
      if i < elts.length then
        Result.ok ()
          ({ w with heap := fun b =>
              if b = a then some (RObj.strsxp (elts.set i (StrElt.ref c))) else w.heap b }.log
            (Event.write a))
      else Result.fault w
    | _, _ => Result.fault w
  | _, _ => Result.fault w

/-- The store `LOGICAL(x)[i] = v`. -/
def LOGICAL_set (x : SEXP) (i : Nat) (v : Int) : R Unit := fun w =>
  match x with
  | SEXP.obj a =>
    match w.heap a with
    | some (RObj.lglsxp elts) =>
      if i < elts.length then
        Result.ok ()
          ({ w with heap := fun b =>
              if b = a then some (RObj.lglsxp (elts.set i v)) else w.heap b }.log
            (Event.write a))
      else Result.fault w
    | _ => Result.fault w
  | SEXP.nil => Result.fault w

/-- The C library formatting of `Rf_error`, for the conversions the source uses: `%s`
takes the next argument, `%%` is a percent sign, any other character is
copied. A null pointer given to `%s` is printed as `(null)`, as the C
libraries R runs on do (the C standard leaves it undefined). The length limit
of the R error buffer is not modelled. -/
def cformat : List Char → List (Option String) → List Char
  | [], _ => []
  | [c], _ => [c]
  | c :: d :: rest, args =>
    if c = '%' ∧ d = 's' then
      match args with
      | some s :: more => s.data ++ cformat rest more
      | none :: more => "(null)".data ++ cformat rest more
      | [] => cformat rest []
    else if c = '%' ∧ d = '%' then '%' :: cformat rest args
    else c :: cformat (d :: rest) args

/-- The runtime function `Rf_error(fmt, ...)`: format the message and leave the current call
with an R error. It does not return. -/
def Rf_error {α : Type} (fmt : String) (args : List (Option String)) : R α := fun w =>
  Result.raised (String.mk (cformat fmt.data args)) w

/-- The text `sub` occurs in `text`. -/
def occursIn (sub text : String) : Prop := sub.data <:+: text.data

instance (sub text : String) : Decidable (occursIn sub text) := by
  unfold occursIn; infer_instance

/-! ## The TileDB-VCF library -/

/-- What a library call does to the variable behind its out-pointer. -/
inductive Out (α : Type) where
  /-- The variable is left as it was. -/
  | untouched
  /-- The pointer `p` (null when `none`) is stored in it. -/
  | stored (p : Option α)

/-- The variable after the call. -/
def Out.apply {α : Type} : Out α → Option α → Option α
  | Out.untouched, cur => cur
  | Out.stored p, _ => p

/-- The answers of the TileDB-VCF C API. Readers, writers and error objects
are opaque handles, here addresses. -/
structure Library where
  /-- The status code `TILEDB_VCF_OK` of `tiledbvcf_enum.h`. -/
  TILEDB_VCF_OK : Int
  /-- Answer of `tiledb_vcf_version(&version)`. -/
  version : Int × Out String
  /-- Answer of `tiledb_vcf_reader_get_last_error(reader, &error)`. -/
  reader_last_error : Nat → Int × Out Nat
  /-- Answer of `tiledb_vcf_writer_get_last_error(writer, &error)`. -/
  writer_last_error : Nat → Int × Out Nat
  /-- Answer of `tiledb_vcf_error_get_message(error, &msg)`. -/
  error_message : Nat → Int × Out String

/-- The call `tiledb_vcf_version(&version)`: yields the status code and the new
value of `version`. -/
def tiledb_vcf_version (lib : Library) (version : Option String) : R (Int × Option String) :=
  fun w => Result.ok (lib.version.1, lib.version.2.apply version)
    (w.log (Event.libcall "tiledb_vcf_version"))

/-- The call `tiledb_vcf_reader_get_last_error(reader, &error)`. -/
def tiledb_vcf_reader_get_last_error (lib : Library) (reader : Nat) (error : Option Nat) :
    R (Int × Option Nat) :=
  fun w => Result.ok ((lib.reader_last_error reader).1, (lib.reader_last_error reader).2.apply error)
    (w.log (Event.libcall "tiledb_vcf_reader_get_last_error"))

/-- The call `tiledb_vcf_writer_get_last_error(writer, &error)`. -/
def tiledb_vcf_writer_get_last_error (lib : Library) (writer : Nat) (error : Option Nat) :
    R (Int × Option Nat) :=
  fun w => Result.ok ((lib.writer_last_error writer).1, (lib.writer_last_error writer).2.apply error)
    (w.log (Event.libcall "tiledb_vcf_writer_get_last_error"))

/-- The call `tiledb_vcf_error_get_message(error, &msg)`. -/
def tiledb_vcf_error_get_message (lib : Library) (error : Nat) (msg : Option String) :
    R (Int × Option String) :=
  fun w => Result.ok ((lib.error_message error).1, (lib.error_message error).2.apply msg)
    (w.log (Event.libcall "tiledb_vcf_error_get_message"))

/-! ## `RC_TileDBVCF.c` -/

/-- The function `_rtiledbvcf_handle_reader_error` of the source. `reader` is the
handle, `none` when it is a null pointer. -/
def _rtiledbvcf_handle_reader_error (lib : Library) (reader : Option Nat)
    (function_name : String) : R SEXP := do
  let mut err_msg : Option String := some "Unknown reader error"
  let mut vcf_error : Option Nat := none
  if let some r := reader then
    let (rc, e) ← tiledb_vcf_reader_get_last_error lib r vcf_error
    vcf_error := e
    if rc = lib.TILEDB_VCF_OK then
      if let some err := vcf_error then
        let (_, m) ← tiledb_vcf_error_get_message lib err err_msg
        err_msg := m
  (Rf_error "Rlibtiledbvcf reader error in %s: %s" [some function_name, err_msg] : R Unit)
  return R_NilValue

/-- The function `_rtiledbvcf_handle_writer_error` of the source. -/
def _rtiledbvcf_handle_writer_error (lib : Library) (writer : Option Nat)
    (function_name : String) : R SEXP := do
  let mut err_msg : Option String := some "Unknown writer error"
  let mut vcf_error : Option Nat := none
  if let some wr := writer then
    let (rc, e) ← tiledb_vcf_writer_get_last_error lib wr vcf_error
    vcf_error := e
    if rc = lib.TILEDB_VCF_OK then
      if let some err := vcf_error then
        let (_, m) ← tiledb_vcf_error_get_message lib err err_msg
        err_msg := m
  (Rf_error "Rlibtiledbvcf writer error in %s: %s" [some function_name, err_msg] : R Unit)
  return R_NilValue

/-- The function `_rtiledbvcf_handle_general_error` of the source. -/
def _rtiledbvcf_handle_general_error (function_name custom_message : String) : R SEXP := do
  (Rf_error "Rlibtiledbvcf error in %s: %s" [some function_name, some custom_message] : R Unit)
  return R_NilValue

/-- The function `RC_tiledb_vcf_version` of the source. -/
def RC_tiledb_vcf_version (lib : Library) : R SEXP := do
  let mut version : Option String := none
  let (_, v) ← tiledb_vcf_version lib version
  version := v
  if version = none then
    version := some "unknown"
  let result ← PROTECT (← Rf_allocVector SEXPTYPE.STRSXP 1)
  SET_STRING_ELT result 0 (← Rf_mkChar version)
  UNPROTECT 1
  return result

/-- The function `RC_tiledb_vcf_available` of the source. -/
def RC_tiledb_vcf_available (lib : Library) : R SEXP := do
  let result ← PROTECT (← Rf_allocVector SEXPTYPE.LGLSXP 1)
  let mut version : Option String := none
  let (_, v) ← tiledb_vcf_version lib version
  version := v
  LOGICAL_set result 0 (if version ≠ none then TRUE else FALSE)
  UNPROTECT 1
  return result

/-! ## `RC_TileDBVCF.h`: the checks -/

/-- The check `RTILEDBVCF_CHECK_READER_ERROR(reader, rc, func)`. The result `some v`
stands for `return v` out of the enclosing function, `none` for falling
through to the statement after the check. -/
def RTILEDBVCF_CHECK_READER_ERROR (lib : Library) (reader : Option Nat) (rc : Int)
    (func : String) : R (Option SEXP) := do
  if rc ≠ lib.TILEDB_VCF_OK then
    return some (← _rtiledbvcf_handle_reader_error lib reader func)
  return none

/-- The check `RTILEDBVCF_CHECK_WRITER_ERROR(writer, rc, func)`. -/
def RTILEDBVCF_CHECK_WRITER_ERROR (lib : Library) (writer : Option Nat) (rc : Int)
    (func : String) : R (Option SEXP) := do
  if rc ≠ lib.TILEDB_VCF_OK then
    return some (← _rtiledbvcf_handle_writer_error lib writer func)
  return none

/-! ## `Rlibtiledbvcf_init.c` -/

/-- The addresses of functions that the registration table holds. -/
inductive DL_FUNC where
  | RC_tiledb_vcf_version
  | RC_tiledb_vcf_available
  deriving DecidableEq, Repr

/-- The function behind an address, as `.Call` runs it. -/
def DL_FUNC.call : DL_FUNC → Library → R SEXP
  | DL_FUNC.RC_tiledb_vcf_version => Rlibtiledbvcf.RC_tiledb_vcf_version
  | DL_FUNC.RC_tiledb_vcf_available => Rlibtiledbvcf.RC_tiledb_vcf_available

/-- The struct `R_CallMethodDef` of `R_ext/Rdynload.h`; null pointers are `none`. -/
structure R_CallMethodDef where
  name : Option String
  func : Option DL_FUNC
  numArgs : Int
  deriving DecidableEq, Repr

/-- The table `CallEntries` of the source. -/
def CallEntries : List R_CallMethodDef :=
  [ { name := some "RC_tiledb_vcf_version", func := some DL_FUNC.RC_tiledb_vcf_version,
      numArgs := 0 },
    { name := some "RC_tiledb_vcf_available", func := some DL_FUNC.RC_tiledb_vcf_available,
      numArgs := 0 },
    { name := none, func := none, numArgs := 0 } ]

/-- What `R_registerRoutines` reads of a table: the entries before the first
one whose name is the null pointer. -/
def entryPoints (table : List R_CallMethodDef) : List R_CallMethodDef :=
  table.takeWhile fun e => e.name.isSome

/-- The part of `DllInfo` that the initialisation sets. -/
structure DllInfo where
  callRoutines : List R_CallMethodDef
  useDynamicSymbols : Bool
  forceSymbols : Bool
  deriving DecidableEq, Repr

/-- The function `R_init_Rlibtiledbvcf` of the source. -/
def R_init_Rlibtiledbvcf (dll : DllInfo) : DllInfo :=
  let dll := { dll with callRoutines := entryPoints CallEntries }
  let dll := { dll with useDynamicSymbols := false }
  { dll with forceSymbols := true }

/-! ## Observations -/

/-- An R value as the caller of `.Call` sees it. -/
inductive RValue where
  /-- The R value `NULL`. -/
  | null
  /-- A character vector; `none` is `NA_character_`. -/
  | character (xs : List (Option String))
  /-- A logical vector of C ints. -/
  | logical (xs : List Int)
  deriving DecidableEq, Repr

/-- The string an element of a character vector stands for; `none` when it
points to a cell that holds no `CHARSXP`. -/
def World.elt (w : World) : StrElt → Option (Option String)
  | StrElt.blank => some (some "")
  | StrElt.na => some none
  | StrElt.ref c =>
    match w.heap c with
    | some (RObj.charsxp s) => some (some s)
    | _ => none

/-- The strings the elements of a character vector stand for. -/
def World.elts (w : World) : List StrElt → Option (List (Option String))
  | [] => some []
  | e :: es =>
    match w.elt e, w.elts es with
    | some x, some xs => some (x :: xs)
    | _, _ => none

/-- The value behind a `SEXP`; `none` when the object is not alive or is not a
vector of one of the two kinds. -/
def World.value (w : World) : SEXP → Option RValue
  | SEXP.nil => some RValue.null
  | SEXP.obj a =>
    match w.heap a with
    | some (RObj.strsxp elts) => (w.elts elts).map RValue.character
    | some (RObj.lglsxp xs) => some (RValue.logical xs)
    | _ => none

/-- The value a call hands back to R; `none` when it raised or faulted. -/
def Result.value : Result SEXP → Option RValue
  | Result.ok v w => w.value v
  | _ => none

/-- The world a call leaves behind. -/
def Result.world {α : Type} : Result α → World
  | Result.ok _ w => w
  | Result.raised _ w => w
  | Result.fault w => w

/-- The events of a call that started in `w` and ended in `w1`. -/
def World.since (w w1 : World) : List Event := w1.trace.drop w.trace.length

/-- The call names of the library calls among the events. -/
def libcalls (evs : List Event) : List String :=
  evs.filterMap fun e =>
    match e with
    | Event.libcall fn => some fn
    | _ => none

/-- The effect of an event on the protection stack. -/
def Event.onStack : Event → List Nat → List Nat
  | Event.protect a, ps => a :: ps
  | Event.unprotect n, ps => ps.drop n
  | _, ps => ps

/-- Where the watched object stands in its life. -/
inductive Phase where
  /-- Not allocated yet. -/
  | unborn
  /-- Allocated, not protected yet. -/
  | fresh
  /-- Protected by the stack entry at height `d` (counted from the bottom). -/
  | held (d : Nat)
  /-- Its stack entry has been popped. -/
  | released
  deriving DecidableEq, Repr

/-- One step of the watch over object `a`: `none` when the event breaks the
discipline. Nothing may happen between the allocation and the `PROTECT`, a
store into `a` needs `a` protected, and nothing may happen after the entry of
`a` is popped. -/
def guardStep (a : Nat) : Phase × List Nat → Event → Option (Phase × List Nat)
  | (Phase.unborn, ps), e =>
    if e = Event.alloc a then some (Phase.fresh, ps)
    else if e = Event.write a then none
    else some (Phase.unborn, e.onStack ps)
  | (Phase.fresh, ps), e =>
    if e = Event.protect a then some (Phase.held ps.length, a :: ps) else none
  | (Phase.held d, ps), e =>
    if d < (e.onStack ps).length then some (Phase.held d, e.onStack ps)
    else some (Phase.released, e.onStack ps)
  | (Phase.released, _), _ => none

/-- The watch over a whole run that starts with the protection stack `ps`. -/
def guardRun (a : Nat) (ps : List Nat) : List Event → Option (Phase × List Nat)
  | evs => evs.foldlM (guardStep a) (Phase.unborn, ps)

/-- The events keep the discipline for the object `a`: it is protected right
after its allocation, stays so until the last event, every store into it
falls in between, and the stack is as deep at the end as at the start. -/
def guarded (a : Nat) (ps : List Nat) (evs : List Event) : Bool :=
  match guardRun a ps evs with
  | some (Phase.released, ps1) => ps1.length == ps.length
  | _ => false

/-- The number of `PROTECT` events. -/
def protects (evs : List Event) : Nat :=
  evs.countP fun e =>
    match e with
    | Event.protect _ => true
    | _ => false

/-- The sizes of the `UNPROTECT` events. -/
def unprotects (evs : List Event) : List Nat :=
  evs.filterMap fun e =>
    match e with
    | Event.unprotect n => some n
    | _ => none

/-- The text that `%s` prints for a C string pointer. -/
def shown : Option String → String
  | some s => s
  | none => "(null)"

/-- The pointer `err_msg` holds when the reader helper reaches `Rf_error`,
read off the answers of the library. -/
def readerMessage (lib : Library) (reader : Option Nat) : Option String :=
  match reader with
  | none => some "Unknown reader error"
  | some r =>
    if (lib.reader_last_error r).1 = lib.TILEDB_VCF_OK then
      match (lib.reader_last_error r).2.apply none with
      | some e => (lib.error_message e).2.apply (some "Unknown reader error")
      | none => some "Unknown reader error"
    else some "Unknown reader error"

/-- The pointer `err_msg` holds when the writer helper reaches `Rf_error`. -/
def writerMessage (lib : Library) (writer : Option Nat) : Option String :=
  match writer with
  | none => some "Unknown writer error"
  | some r =>
    if (lib.writer_last_error r).1 = lib.TILEDB_VCF_OK then
      match (lib.writer_last_error r).2.apply none with
      | some e => (lib.error_message e).2.apply (some "Unknown writer error")
      | none => some "Unknown writer error"
    else some "Unknown writer error"

/-- What the specification says of the registration table: `entries` are two entry points
without arguments, one called `versionName` and bound to
`RC_tiledb_vcf_version`, one called `availableName` and bound to
`RC_tiledb_vcf_available`. -/
def exposes (entries : List R_CallMethodDef) (versionName availableName : String) : Prop :=
  entries.length = 2 ∧ (∀ e ∈ entries, e.numArgs = 0) ∧
    (∃ e ∈ entries, e.name = some versionName ∧
      e.func = some DL_FUNC.RC_tiledb_vcf_version) ∧
    (∃ e ∈ entries, e.name = some availableName ∧
      e.func = some DL_FUNC.RC_tiledb_vcf_available)

instance (entries : List R_CallMethodDef) (v a : String) : Decidable (exposes entries v a) := by
  unfold exposes; infer_instance

/-! ## Sample inputs -/

/-- An empty process: nothing allocated, nothing protected, the collector
runs at each of the next two allocations. -/
def emptyWorld : World :=
  { heap := fun _ => none, next := 0, pstack := [], gcTape := [true, true],
    junk := fun _ => NA_LOGICAL, trace := [] }

/-- A process with one protected object and a history. -/
def busyWorld : World :=
  { heap := fun a => if a = 0 then some (RObj.lglsxp [1]) else none, next := 1, pstack := [0],
    gcTape := [false, true], junk := fun _ => 7, trace := [Event.alloc 0, Event.protect 0] }

/-- A library that reports version `0.30.1` and, for every handle, the error
`disk full`. -/
def diskFullLibrary : Library :=
  { TILEDB_VCF_OK := 0
    version := (0, Out.stored (some "0.30.1"))
    reader_last_error := fun _ => (0, Out.stored (some 7))
    writer_last_error := fun _ => (0, Out.stored (some 8))
    error_message := fun _ => (0, Out.stored (some "disk full")) }

/-- The same library, but its version call reports a failure status while
still storing the version. -/
def failingStatusLibrary : Library :=
  { diskFullLibrary with version := (-1, Out.stored (some "0.30.1")) }

/-- A library whose message query stores a null pointer. -/
def nullMessageLibrary : Library :=
  { diskFullLibrary with error_message := fun _ => (0, Out.stored none) }

/-! ## Running the functions -/

@[simp] theorem R.pure_run {α : Type} (v : α) (w : World) :
    (Pure.pure v : R α) w = Result.ok v w := rfl

@[simp] theorem R.bind_run {α β : Type} (x : R α) (f : α → R β) (w : World) :
    (x >>= f) w = match x w with
      | Result.ok v w1 => f v w1
      | Result.raised t w1 => Result.raised t w1
      | Result.fault w1 => Result.fault w1 := rfl

/-- A run of `RC_tiledb_vcf_version`: what it returns and the world it leaves. -/
theorem version_run (lib : Library) (w : World) :
    ∃ w1, RC_tiledb_vcf_version lib w = Result.ok (SEXP.obj w.next) w1 ∧
      w1.heap w.next = some (RObj.strsxp [StrElt.ref (w.next + 1)]) ∧
      w1.heap (w.next + 1) =
        some (RObj.charsxp ((lib.version.2.apply none).getD "unknown")) ∧
      w1.pstack = w.pstack ∧
      w1.trace = w.trace ++ [Event.libcall "tiledb_vcf_version", Event.alloc w.next,
        Event.protect w.next, Event.alloc (w.next + 1), Event.write w.next,
        Event.unprotect 1] := by
  obtain ⟨heap, next, pstack, gcTape, junk, trace⟩ := w
  simp only [RC_tiledb_vcf_version]
  cases hv : lib.version.2.apply none <;>
  rcases gcTape with _ | ⟨g1, _ | ⟨g2, t⟩⟩ <;> try cases g1 <;> try cases g2
  all_goals simp [tiledb_vcf_version, Rf_allocVector, World.allocate, PROTECT, Rf_mkChar,
    SET_STRING_ELT, UNPROTECT, World.log, hv, World.collect, World.reachable]

/-- A run of `RC_tiledb_vcf_available`: what it returns and the world it leaves. -/
theorem available_run (lib : Library) (w : World) :
    ∃ w1, RC_tiledb_vcf_available lib w = Result.ok (SEXP.obj w.next) w1 ∧
      w1.heap w.next =
        some (RObj.lglsxp [if lib.version.2.apply none ≠ none then TRUE else FALSE]) ∧
      w1.pstack = w.pstack ∧
      w1.trace = w.trace ++ [Event.alloc w.next, Event.protect w.next,
        Event.libcall "tiledb_vcf_version", Event.write w.next, Event.unprotect 1] := by
  obtain ⟨heap, next, pstack, gcTape, junk, trace⟩ := w
  simp only [RC_tiledb_vcf_available]
  rcases gcTape with _ | ⟨g1, t⟩ <;> try cases g1
  all_goals simp [tiledb_vcf_version, Rf_allocVector, World.allocate, PROTECT, LOGICAL_set,
    UNPROTECT, World.log, World.collect, World.reachable, List.range_succ]

/-- A run of the reader helper: it raises, with the formatted text. -/
theorem reader_error_run (lib : Library) (reader : Option Nat) (fn : String) (w : World) :
    ∃ w1, _rtiledbvcf_handle_reader_error lib reader fn w =
      Result.raised (String.mk ("Rlibtiledbvcf reader error in ".data ++ fn.data ++ ": ".data ++
        (shown (readerMessage lib reader)).data)) w1 := by
  simp only [_rtiledbvcf_handle_reader_error, readerMessage]
  cases reader with
  | none => simp [Rf_error, cformat, shown]
  | some r =>
    by_cases hrc : (lib.reader_last_error r).1 = lib.TILEDB_VCF_OK
    · cases he : (lib.reader_last_error r).2.apply none with
      | none => simp [Rf_error, cformat, shown, tiledb_vcf_reader_get_last_error, hrc, he]
      | some e =>
        cases hm : (lib.error_message e).2.apply (some "Unknown reader error") <;>
          simp [Rf_error, cformat, shown, tiledb_vcf_reader_get_last_error,
            tiledb_vcf_error_get_message, hrc, he, hm]
    · simp [Rf_error, cformat, shown, tiledb_vcf_reader_get_last_error, hrc]

/-- A run of the writer helper: it raises, with the formatted text. -/
theorem writer_error_run (lib : Library) (writer : Option Nat) (fn : String) (w : World) :
    ∃ w1, _rtiledbvcf_handle_writer_error lib writer fn w =
      Result.raised (String.mk ("Rlibtiledbvcf writer error in ".data ++ fn.data ++ ": ".data ++
        (shown (writerMessage lib writer)).data)) w1 := by
  simp only [_rtiledbvcf_handle_writer_error, writerMessage]
  cases writer with
  | none => simp [Rf_error, cformat, shown]
  | some r =>
    by_cases hrc : (lib.writer_last_error r).1 = lib.TILEDB_VCF_OK
    · cases he : (lib.writer_last_error r).2.apply none with
      | none => simp [Rf_error, cformat, shown, tiledb_vcf_writer_get_last_error, hrc, he]
      | some e =>
        cases hm : (lib.error_message e).2.apply (some "Unknown writer error") <;>
          simp [Rf_error, cformat, shown, tiledb_vcf_writer_get_last_error,
            tiledb_vcf_error_get_message, hrc, he, hm]
    · simp [Rf_error, cformat, shown, tiledb_vcf_writer_get_last_error, hrc]

/-- A run of the general helper: it raises, in the world it was called in. -/
theorem general_error_run (fn msg : String) (w : World) :
    _rtiledbvcf_handle_general_error fn msg w =
      Result.raised (String.mk ("Rlibtiledbvcf error in ".data ++ fn.data ++ ": ".data ++
        msg.data)) w := by
  simp [_rtiledbvcf_handle_general_error, Rf_error, cformat]

/-- The second of four parts occurs in their concatenation. -/
theorem occursIn_second (a b c d : List Char) (s : String) (h : s.data = b) :
    occursIn s (String.mk (a ++ b ++ c ++ d)) := by
  unfold occursIn
  exact ⟨a, c ++ d, by simp [h]⟩

/-- The last of four parts occurs in their concatenation. -/
theorem occursIn_fourth (a b c d : List Char) (s : String) (h : s.data = d) :
    occursIn s (String.mk (a ++ b ++ c ++ d)) := by
  unfold occursIn
  exact ⟨a ++ b ++ c, [], by simp [h]⟩

/-! ## The properties of the specification -/

/-- C1: whatever `tiledb_vcf_version` answers, and whenever the collector runs,
`RC_tiledb_vcf_version` returns (it neither raises nor faults) a live object,
not `R_NilValue`, that is a character vector of length 1 whose element is not
`NA`: it is `unknown` when the version pointer is null after the library call
and a copy of the string the library supplied otherwise. -/
theorem RC_tiledb_vcf_version_returns_one_string (lib : Library) (w : World) :
    ∃ a w1, RC_tiledb_vcf_version lib w = Result.ok (SEXP.obj a) w1 ∧
      w1.value (SEXP.obj a) = some (RValue.character [some
        (match lib.version.2.apply none with
          | none => "unknown"
          | some v => v)]) := by
  obtain ⟨w1, hrun, ha, hc, -, -⟩ := version_run lib w
  refine ⟨w.next, w1, hrun, ?_⟩
  cases hv : lib.version.2.apply none <;>
    simp [World.value, World.elts, World.elt, ha, hc, hv]

/-- C2: whatever `tiledb_vcf_version` answers (status code included), and
whenever the collector runs, `RC_tiledb_vcf_available` returns a live logical
vector of length 1 whose element is `TRUE` exactly when the version pointer is
non-null after the library call, `FALSE` exactly when it is null, and never
`NA_LOGICAL`. -/
theorem RC_tiledb_vcf_available_returns_one_flag (lib : Library) (w : World) :
    ∃ a w1 b, RC_tiledb_vcf_available lib w = Result.ok (SEXP.obj a) w1 ∧
      w1.value (SEXP.obj a) = some (RValue.logical [b]) ∧
      (b = TRUE ↔ lib.version.2.apply none ≠ none) ∧
      (b = FALSE ↔ lib.version.2.apply none = none) ∧ b ≠ NA_LOGICAL := by
  obtain ⟨w1, hrun, ha, -, -⟩ := available_run lib w
  refine ⟨w.next, w1, if lib.version.2.apply none ≠ none then TRUE else FALSE, hrun, ?_, ?_, ?_, ?_⟩
  · simp only [World.value, ha]
  all_goals cases hv : lib.version.2.apply none <;> simp [TRUE, FALSE, NA_LOGICAL]

/-- C3: when the last-error query on a non-null reader (writer) handle returns
`TILEDB_VCF_OK` and leaves a non-null error object, and the message query
stores the message `m`, the reader (writer) helper raises an error whose text
contains the operation name and `m`. -/
theorem handle_error_carries_library_message (lib : Library) (fn m : String) (w : World) :
    (∀ reader e, (lib.reader_last_error reader).1 = lib.TILEDB_VCF_OK →
      (lib.reader_last_error reader).2.apply none = some e →
      (lib.error_message e).2 = Out.stored (some m) →
      ∃ text w1, _rtiledbvcf_handle_reader_error lib (some reader) fn w = Result.raised text w1 ∧
        occursIn fn text ∧ occursIn m text) ∧
    (∀ writer e, (lib.writer_last_error writer).1 = lib.TILEDB_VCF_OK →
      (lib.writer_last_error writer).2.apply none = some e →
      (lib.error_message e).2 = Out.stored (some m) →
      ∃ text w1, _rtiledbvcf_handle_writer_error lib (some writer) fn w = Result.raised text w1 ∧
        occursIn fn text ∧ occursIn m text) := by
  constructor
  · intro reader e hrc he hm
    obtain ⟨w1, hrun⟩ := reader_error_run lib (some reader) fn w
    refine ⟨_, w1, hrun, occursIn_second _ _ _ _ _ rfl, occursIn_fourth _ _ _ _ _ ?_⟩
    have hmsg : readerMessage lib (some reader) = some m := by
      simp [readerMessage, hrc, he, hm]
      rfl
    rw [hmsg]
    rfl
  · intro writer e hrc he hm
    obtain ⟨w1, hrun⟩ := writer_error_run lib (some writer) fn w
    refine ⟨_, w1, hrun, occursIn_second _ _ _ _ _ rfl, occursIn_fourth _ _ _ _ _ ?_⟩
    have hmsg : writerMessage lib (some writer) = some m := by
      simp [writerMessage, hrc, he, hm]
      rfl
    rw [hmsg]
    rfl

/-- C3 at the library that reports `disk full`, for the operation
`read_samples`: the hypotheses hold there, and so do the conclusions. -/
theorem handle_error_carries_library_message_witness :
    ((diskFullLibrary.reader_last_error 1).1 = diskFullLibrary.TILEDB_VCF_OK ∧
      (diskFullLibrary.reader_last_error 1).2.apply none = some 7 ∧
      (diskFullLibrary.writer_last_error 1).1 = diskFullLibrary.TILEDB_VCF_OK ∧
      (diskFullLibrary.writer_last_error 1).2.apply none = some 8 ∧
      (diskFullLibrary.error_message 7).2 = Out.stored (some "disk full") ∧
      (diskFullLibrary.error_message 8).2 = Out.stored (some "disk full")) ∧
    (∃ text w1, _rtiledbvcf_handle_reader_error diskFullLibrary (some 1) "read_samples"
        emptyWorld = Result.raised text w1 ∧
      occursIn "read_samples" text ∧ occursIn "disk full" text) ∧
    (∃ text w1, _rtiledbvcf_handle_writer_error diskFullLibrary (some 1) "read_samples"
        emptyWorld = Result.raised text w1 ∧
      occursIn "read_samples" text ∧ occursIn "disk full" text) :=
  ⟨⟨rfl, rfl, rfl, rfl, rfl, rfl⟩,
   (handle_error_carries_library_message diskFullLibrary "read_samples" "disk full"
      emptyWorld).1 1 7 rfl rfl rfl,
   (handle_error_carries_library_message diskFullLibrary "read_samples" "disk full"
      emptyWorld).2 1 8 rfl rfl rfl⟩

/-- C4, at the failing input: the message query stores a null pointer. Both
helpers then raise with `(null)` for the message; the placeholder is absent
from the text. -/
theorem null_message_loses_placeholder :
    (∃ w1, _rtiledbvcf_handle_reader_error nullMessageLibrary (some 1) "read_samples"
        emptyWorld = Result.raised "Rlibtiledbvcf reader error in read_samples: (null)" w1) ∧
      ¬ occursIn "Unknown reader error" "Rlibtiledbvcf reader error in read_samples: (null)" ∧
    (∃ w1, _rtiledbvcf_handle_writer_error nullMessageLibrary (some 1) "read_samples"
        emptyWorld = Result.raised "Rlibtiledbvcf writer error in read_samples: (null)" w1) ∧
      ¬ occursIn "Unknown writer error" "Rlibtiledbvcf writer error in read_samples: (null)" := by
  refine ⟨?_, by decide, ?_, by decide⟩
  · obtain ⟨w1, hrun⟩ := reader_error_run nullMessageLibrary (some 1) "read_samples" emptyWorld
    exact ⟨w1, hrun⟩
  · obtain ⟨w1, hrun⟩ := writer_error_run nullMessageLibrary (some 1) "read_samples" emptyWorld
    exact ⟨w1, hrun⟩

/-- Support for the placeholder: in every state in which the helpers do not reach the message
query, or the query leaves `err_msg` as it was, the text contains the
placeholder. -/
theorem placeholder_when_message_untouched (lib : Library) (handle : Option Nat) (fn : String)
    (w : World) :
    (readerMessage lib handle = some "Unknown reader error" →
      ∃ text w1, _rtiledbvcf_handle_reader_error lib handle fn w = Result.raised text w1 ∧
        occursIn "Unknown reader error" text) ∧
    (writerMessage lib handle = some "Unknown writer error" →
      ∃ text w1, _rtiledbvcf_handle_writer_error lib handle fn w = Result.raised text w1 ∧
        occursIn "Unknown writer error" text) := by
  constructor
  · intro h
    obtain ⟨w1, hrun⟩ := reader_error_run lib handle fn w
    exact ⟨_, w1, hrun, occursIn_fourth _ _ _ _ _ (by rw [h]; rfl)⟩
  · intro h
    obtain ⟨w1, hrun⟩ := writer_error_run lib handle fn w
    exact ⟨_, w1, hrun, occursIn_fourth _ _ _ _ _ (by rw [h]; rfl)⟩

/-- C5: for every operation name `f` and message `m` the general helper raises
an error whose text contains `f` and `m`, and the events of the call hold no
library call. -/
theorem handle_general_error_text (f m : String) (w : World) :
    ∃ text w1, _rtiledbvcf_handle_general_error f m w = Result.raised text w1 ∧
      occursIn f text ∧ occursIn m text ∧ libcalls (w.since w1) = [] := by
  refine ⟨_, w, general_error_run f m w, occursIn_second _ _ _ _ _ rfl,
    occursIn_fourth _ _ _ _ _ rfl, ?_⟩
  simp [World.since, libcalls]

/-- C6: for every handle, null or not, every operation name and message,
every answer of the library and every state of the host, each of the three
error helpers ends by raising: none returns a value or faults. -/
theorem error_helpers_always_raise (lib : Library) (handle : Option Nat) (fn msg : String)
    (w : World) :
    (∃ text w1, _rtiledbvcf_handle_reader_error lib handle fn w = Result.raised text w1) ∧
    (∃ text w1, _rtiledbvcf_handle_writer_error lib handle fn w = Result.raised text w1) ∧
    (∃ text w1, _rtiledbvcf_handle_general_error fn msg w = Result.raised text w1) := by
  obtain ⟨w1, h1⟩ := reader_error_run lib handle fn w
  obtain ⟨w2, h2⟩ := writer_error_run lib handle fn w
  exact ⟨⟨_, w1, h1⟩, ⟨_, w2, h2⟩, ⟨_, w, general_error_run fn msg w⟩⟩

/-- C7: the value each entry point hands back depends on the version pointer
after the library call and on nothing else. Two calls whose library answers
leave the same pointer return equal values, whatever the status codes and the
states of the host they run in; this holds in particular for a call that
runs in the state an earlier call of either entry point left. -/
theorem entry_points_deterministic (lib1 lib2 : Library) (w1 w2 : World)
    (h : lib1.version.2.apply none = lib2.version.2.apply none) :
    (RC_tiledb_vcf_version lib1 w1).value = (RC_tiledb_vcf_version lib2 w2).value ∧
    (RC_tiledb_vcf_available lib1 w1).value = (RC_tiledb_vcf_available lib2 w2).value ∧
    (RC_tiledb_vcf_version lib2 (RC_tiledb_vcf_version lib1 w1).world).value =
      (RC_tiledb_vcf_version lib1 w1).value ∧
    (RC_tiledb_vcf_available lib2 (RC_tiledb_vcf_available lib1 w1).world).value =
      (RC_tiledb_vcf_available lib1 w1).value ∧
    (RC_tiledb_vcf_version lib2 (RC_tiledb_vcf_available lib1 w1).world).value =
      (RC_tiledb_vcf_version lib1 w1).value ∧
    (RC_tiledb_vcf_available lib2 (RC_tiledb_vcf_version lib1 w1).world).value =
      (RC_tiledb_vcf_available lib1 w1).value ∧
    (RC_tiledb_vcf_version lib1 w1).value ≠ none ∧
    (RC_tiledb_vcf_available lib1 w1).value ≠ none := by
  have hv : ∀ (lib : Library) (w : World), (RC_tiledb_vcf_version lib w).value =
      some (RValue.character [some ((lib.version.2.apply none).getD "unknown")]) := by
    intro lib w
    obtain ⟨w3, hrun, ha, hc, -, -⟩ := version_run lib w
    simp [hrun, Result.value, World.value, World.elts, World.elt, ha, hc]
  have ha : ∀ (lib : Library) (w : World), (RC_tiledb_vcf_available lib w).value =
      some (RValue.logical [if lib.version.2.apply none ≠ none then TRUE else FALSE]) := by
    intro lib w
    obtain ⟨w3, hrun, ha, -, -⟩ := available_run lib w
    simp only [hrun, Result.value, World.value, ha]
  simp only [hv, ha, h]
  simp

/-- C7 at two libraries that differ in the status code only, in two
different states of the host. -/
theorem entry_points_deterministic_witness :
    diskFullLibrary.version.2.apply none = failingStatusLibrary.version.2.apply none ∧
    (RC_tiledb_vcf_version diskFullLibrary emptyWorld).value =
      (RC_tiledb_vcf_version failingStatusLibrary busyWorld).value ∧
    (RC_tiledb_vcf_available diskFullLibrary emptyWorld).value =
      (RC_tiledb_vcf_available failingStatusLibrary busyWorld).value :=
  ⟨rfl,
   (entry_points_deterministic diskFullLibrary failingStatusLibrary emptyWorld busyWorld rfl).1,
   (entry_points_deterministic diskFullLibrary failingStatusLibrary emptyWorld busyWorld
      rfl).2.1⟩

/-- The watch rejects a run that allocates between the allocation of the
object and its `PROTECT`. -/
theorem guarded_rejects_late_protect :
    guarded 0 [] [Event.alloc 0, Event.alloc 1, Event.protect 0, Event.write 0,
      Event.unprotect 1] = false := by
  decide

/-- The watch rejects a store into the object after its entry is popped, and
a run that never pops it. -/
theorem guarded_rejects_unprotected_write :
    guarded 0 [] [Event.alloc 0, Event.protect 0, Event.unprotect 1, Event.write 0] = false ∧
    guarded 0 [] [Event.alloc 0, Event.protect 0, Event.write 0] = false := by
  decide

/-- C8: on every path through `RC_tiledb_vcf_version` and
`RC_tiledb_vcf_available` (every library answer, every state of the host) the
events of the call keep the protection discipline for the returned object:
`PROTECT` follows its allocation at once, its stack entry stays until the
last event, every store into it falls in between, there is one `PROTECT` and
one `UNPROTECT(1)`, and the protection stack at return is the one at entry. -/
theorem result_protected_until_return (lib : Library) (w : World) :
    (∃ a w1, RC_tiledb_vcf_version lib w = Result.ok (SEXP.obj a) w1 ∧
      guarded a w.pstack (w.since w1) = true ∧ protects (w.since w1) = 1 ∧
      unprotects (w.since w1) = [1] ∧ Event.write a ∈ w.since w1 ∧
      w1.pstack = w.pstack) ∧
    (∃ a w1, RC_tiledb_vcf_available lib w = Result.ok (SEXP.obj a) w1 ∧
      guarded a w.pstack (w.since w1) = true ∧ protects (w.since w1) = 1 ∧
      unprotects (w.since w1) = [1] ∧ Event.write a ∈ w.since w1 ∧
      w1.pstack = w.pstack) := by
  constructor
  · obtain ⟨w1, hrun, -, -, hps, htr⟩ := version_run lib w
    refine ⟨w.next, w1, hrun, ?_, ?_, ?_, ?_, hps⟩ <;>
      simp [World.since, htr, guarded, guardRun, guardStep, Event.onStack, protects, unprotects]
  · obtain ⟨w1, hrun, -, hps, htr⟩ := available_run lib w
    refine ⟨w.next, w1, hrun, ?_, ?_, ?_, ?_, hps⟩ <;>
      simp [World.since, htr, guarded, guardRun, guardStep, Event.onStack, protects, unprotects]

/-- C9, as stated, fails: no entry point of the table is called
`tiledb_vcf_version` or `tiledb_vcf_available`. -/
theorem CallEntries_has_no_bare_names :
    ¬ exposes (entryPoints CallEntries) "tiledb_vcf_version" "tiledb_vcf_available" := by
  decide

/-- C9, amended: the table that `R_init_Rlibtiledbvcf` registers holds two
entry points before its sentinel, each with zero arguments: one called
`RC_tiledb_vcf_version`, bound to the function `RC_tiledb_vcf_version`, and
one called `RC_tiledb_vcf_available`, bound to `RC_tiledb_vcf_available`. -/
theorem CallEntries_exposes_two_entry_points (dll : DllInfo) :
    exposes (R_init_Rlibtiledbvcf dll).callRoutines
      "RC_tiledb_vcf_version" "RC_tiledb_vcf_available" ∧
    (R_init_Rlibtiledbvcf dll).callRoutines ++ [{ name := none, func := none, numArgs := 0 }] =
      CallEntries ∧
    DL_FUNC.call DL_FUNC.RC_tiledb_vcf_version = RC_tiledb_vcf_version ∧
    DL_FUNC.call DL_FUNC.RC_tiledb_vcf_available = RC_tiledb_vcf_available := by
  refine ⟨?_, ?_, rfl, rfl⟩
  · show exposes (entryPoints CallEntries) _ _
    decide
  · show entryPoints CallEntries ++ _ = CallEntries
    decide

/-- C10: the check raises exactly when `rc` differs from `TILEDB_VCF_OK`, and
then with the error of the reader (writer) helper; it falls through, leaving
the host and the trace of library calls as they were, exactly when `rc` is
`TILEDB_VCF_OK`. -/
theorem check_raises_iff_not_ok (lib : Library) (handle : Option Nat) (rc : Int) (func : String)
    (w : World) :
    ((∃ text w1, RTILEDBVCF_CHECK_READER_ERROR lib handle rc func w = Result.raised text w1) ↔
      rc ≠ lib.TILEDB_VCF_OK) ∧
    (∀ text w1, RTILEDBVCF_CHECK_READER_ERROR lib handle rc func w = Result.raised text w1 ↔
      rc ≠ lib.TILEDB_VCF_OK ∧
        _rtiledbvcf_handle_reader_error lib handle func w = Result.raised text w1) ∧
    (RTILEDBVCF_CHECK_READER_ERROR lib handle rc func w = Result.ok none w ↔
      rc = lib.TILEDB_VCF_OK) ∧
    ((∃ text w1, RTILEDBVCF_CHECK_WRITER_ERROR lib handle rc func w = Result.raised text w1) ↔
      rc ≠ lib.TILEDB_VCF_OK) ∧
    (∀ text w1, RTILEDBVCF_CHECK_WRITER_ERROR lib handle rc func w = Result.raised text w1 ↔
      rc ≠ lib.TILEDB_VCF_OK ∧
        _rtiledbvcf_handle_writer_error lib handle func w = Result.raised text w1) ∧
    (RTILEDBVCF_CHECK_WRITER_ERROR lib handle rc func w = Result.ok none w ↔
      rc = lib.TILEDB_VCF_OK) := by
  obtain ⟨wr, hr⟩ := reader_error_run lib handle func w
  obtain ⟨ww, hw⟩ := writer_error_run lib handle func w
  by_cases h : rc = lib.TILEDB_VCF_OK
  · simp [RTILEDBVCF_CHECK_READER_ERROR, RTILEDBVCF_CHECK_WRITER_ERROR, h]
  · simp [RTILEDBVCF_CHECK_READER_ERROR, RTILEDBVCF_CHECK_WRITER_ERROR, h, hr, hw]

end Rlibtiledbvcf
